import Mathlib

/-!
Verification development for the qix-clone territory-capture geometry engine.

The definitions below are shallow embeddings of the TypeScript source:
coordinates are modelled as exact rationals (`ℚ`), `THREE.Vector2` as `Point`,
and each function mirrors its source counterpart statement by statement.
Two historical variants of the boundary classifier / boundary path coexist in
the repository; they are embedded in namespaces `GeometryUtils`
(src/game/geometryUtils.ts, epsilon comparisons) and `Main`
(src/main.ts inline copy, exact comparisons).
-/

namespace QixClone

/-- A 2-D point, modelling `THREE.Vector2` with exact rational coordinates. -/
structure Point where
  x : ℚ
  y : ℚ
deriving DecidableEq

/-- Default point used for out-of-range list indexing (never reached on the
paths exercised by the theorems). -/
def pZero : Point := ⟨0, 0⟩

/-- `getOrientation` from src/game/geometryUtils.ts (identical copies in
src/main.ts and src/unnamed/part_003): 0 collinear, 1 clockwise,
2 counterclockwise. -/
def getOrientation (p q r : Point) : Int :=
  let val := (q.y - p.y) * (r.x - q.x) - (q.x - p.x) * (r.y - q.y)
  if val = 0 then 0 else if val > 0 then 1 else 2

/-- `onSegment` from src/game/geometryUtils.ts: q within the bounding box of
p and r. -/
def onSegment (p q r : Point) : Prop :=
  q.x ≤ max p.x r.x ∧ q.x ≥ min p.x r.x ∧
  q.y ≤ max p.y r.y ∧ q.y ≥ min p.y r.y

instance (p q r : Point) : Decidable (onSegment p q r) := by
  unfold onSegment; infer_instance

/-- `segmentsIntersect` from src/game/geometryUtils.ts lines 19-43 (identical
copies in src/main.ts lines 36-69 and src/unnamed/part_003 lines 69-102). -/
def segmentsIntersect (p1 q1 p2 q2 : Point) : Bool :=
  let o1 := getOrientation p1 q1 p2
  let o2 := getOrientation p1 q1 q2
  let o3 := getOrientation p2 q2 p1
  let o4 := getOrientation p2 q2 q1
  if o1 ≠ 0 ∧ o2 ≠ 0 ∧ o3 ≠ 0 ∧ o4 ≠ 0 ∧ o1 ≠ o2 ∧ o3 ≠ o4 then
    -- general case; the inner guard rejects shared endpoints
    if p1 = p2 ∨ p1 = q2 ∨ q1 = p2 ∨ q1 = q2 then false else true
  else if o1 = 0 ∧ onSegment p1 p2 q1 then true
  else if o2 = 0 ∧ onSegment p1 q2 q1 then true
  else if o3 = 0 ∧ onSegment p2 p1 q2 then true
  else if o4 = 0 ∧ onSegment p2 q1 q2 then true
  else false

/-- `createOrderedCorners` from src/game/geometryUtils.ts: corners in
clockwise order starting bottom-left. -/
def createOrderedCorners (gl : ℚ) : List Point :=
  [⟨-gl, -gl⟩, ⟨gl, -gl⟩, ⟨gl, gl⟩, ⟨-gl, gl⟩]

/-- Last element of a (morally nonempty) path, as `path[path.length-1]`
(`pZero` for the empty list, which never occurs in the source's uses). -/
def lastD : List Point → Point
  | [] => pZero
  | [p] => p
  | _ :: p :: ps => lastD (p :: ps)

/-- `orderedCorners[i]` for a clockwise corner list, with the source's
`% 4` wraparound (the source's index is always in 0..3 after the modulus). -/
def cornerAt (corners : List Point) (i : Int) : Point :=
  if i % 4 = 0 then corners.getD 0 pZero
  else if i % 4 = 1 then corners.getD 1 pZero
  else if i % 4 = 2 then corners.getD 2 pZero
  else corners.getD 3 pZero

end QixClone

namespace QixClone.GeometryUtils

/-- Epsilon used by the boundary classifier in src/game/geometryUtils.ts. -/
def epsilon : ℚ := 1 / 100000

/-- `getSegmentForPoint` from src/game/geometryUtils.ts lines 61-90: edge
checks with epsilon tolerance first, then exact corner checks
(0 bottom, 1 right, 2 top, 3 left, -1 invalid). -/
def getSegmentForPoint (point : Point) (gl : ℚ) : Int :=
  let corners := createOrderedCorners gl
  if |point.y - (-gl)| < epsilon ∧ point.x > -gl - epsilon ∧ point.x < gl + epsilon then 0
  else if |point.x - gl| < epsilon ∧ point.y > -gl - epsilon ∧ point.y < gl + epsilon then 1
  else if |point.y - gl| < epsilon ∧ point.x < gl + epsilon ∧ point.x > -gl - epsilon then 2
  else if |point.x - (-gl)| < epsilon ∧ point.y < gl + epsilon ∧ point.y > -gl - epsilon then 3
  else if point = corners.getD 0 pZero then 0
  else if point = corners.getD 1 pZero then 1
  else if point = corners.getD 2 pZero then 2
  else if point = corners.getD 3 pZero then 3
  else -1

/-- The `for (let i = 0; i < 8; i++)` loop of `getBoundaryPath` in
src/game/geometryUtils.ts lines 110-139, as fuel recursion. -/
def boundaryPathGo (isClockwise : Bool) (corners : List Point) (p1 p2 : Point)
    (targetSeg : Int) : Nat → Int → List Point → List Point
  | 0, _, path => path
  | fuel + 1, currentSeg, path =>
    if currentSeg = targetSeg ∧
        (lastD path = p1 ∨ lastD path = cornerAt corners currentSeg ∨
         lastD path = cornerAt corners (currentSeg + 1)) then path
    else
      let cornerToAdd :=
        if isClockwise then cornerAt corners (currentSeg + 1) else cornerAt corners currentSeg
      let nextSeg := if isClockwise then (currentSeg + 1) % 4 else (currentSeg + 3) % 4
      let path' := path ++ [cornerToAdd]
      if cornerToAdd = p2 then path'
      else if path'.length > 6 then path'
      else boundaryPathGo isClockwise corners p1 p2 targetSeg fuel nextSeg path'

/-- `getBoundaryPath` from src/game/geometryUtils.ts lines 92-145. -/
def getBoundaryPath (p1 p2 : Point) (isClockwise : Bool) (gl : ℚ) : List Point :=
  let orderedCorners := createOrderedCorners gl
  let currentSeg := getSegmentForPoint p1 gl
  let targetSeg := getSegmentForPoint p2 gl
  if p1 = p2 then [p1]
  else if currentSeg = -1 then [p1]
  else if targetSeg = -1 then [p1, p2]
  else
    let path := boundaryPathGo isClockwise orderedCorners p1 p2 targetSeg 8 currentSeg [p1]
    if lastD path = p2 then path else path ++ [p2]

/-- Closed-loop normalization in `calculateQixPolygons`: drop the trailing
vertex when it duplicates the leading one. -/
def dedupClosed (poly : List Point) : List Point :=
  if 1 < poly.length ∧ lastD poly = poly.headD pZero then poly.dropLast else poly

/-- `calculateQixPolygons` from src/game/geometryUtils.ts lines 147-170. -/
def calculateQixPolygons (playerTrail : List Point) (gl : ℚ) :
    List Point × List Point :=
  if playerTrail.length < 2 then ([], [])
  else
    let startTrailNode := playerTrail.headD pZero
    let endTrailNode := lastD playerTrail
    let boundaryPathCW := getBoundaryPath endTrailNode startTrailNode true gl
    let boundaryPathCCW := getBoundaryPath endTrailNode startTrailNode false gl
    (dedupClosed (playerTrail ++ boundaryPathCW.drop 1),
     dedupClosed (playerTrail ++ boundaryPathCCW.drop 1))

end QixClone.GeometryUtils

namespace QixClone.Main

/-- `gridLimit` from src/main.ts line 16. -/
def gridLimit : ℚ := 14

/-- `totalGameArea` from src/main.ts line 17. -/
def totalGameArea : ℚ := (2 * gridLimit) * (2 * gridLimit)

/-- `getSegmentForPoint` from the inline copy in src/main.ts lines 80-93
(same in src/unnamed/part_003 lines 113-126): exact comparisons, edges
exclusive of corners, then corner-start assignments. -/
def getSegmentForPoint (point : Point) (gl : ℚ) : Int :=
  if point.y = -gl ∧ point.x > -gl ∧ point.x < gl then 0
  else if point.x = gl ∧ point.y > -gl ∧ point.y < gl then 1
  else if point.y = gl ∧ point.x < gl ∧ point.x > -gl then 2
  else if point.x = -gl ∧ point.y < gl ∧ point.y > -gl then 3
  else if point = ⟨-gl, -gl⟩ then 0
  else if point = ⟨gl, -gl⟩ then 1
  else if point = ⟨gl, gl⟩ then 2
  else if point = ⟨-gl, gl⟩ then 3
  else -1

/-- The `for (let i = 0; i < 8; i++)` loop of `getBoundaryPath` in
src/main.ts lines 115-139 (simple same-segment break), as fuel recursion. -/
def boundaryPathGo (isClockwise : Bool) (corners : List Point) (p2 : Point)
    (targetSeg : Int) : Nat → Int → List Point → List Point
  | 0, _, path => path
  | fuel + 1, currentSeg, path =>
    if currentSeg = targetSeg then path
    else
      let cornerToAdd :=
        if isClockwise then cornerAt corners (currentSeg + 1) else cornerAt corners currentSeg
      let nextSeg := if isClockwise then (currentSeg + 1) % 4 else (currentSeg + 3) % 4
      let path' := path ++ [cornerToAdd]
      if cornerToAdd = p2 then path'
      else if path'.length > 6 then path'
      else boundaryPathGo isClockwise corners p2 targetSeg fuel nextSeg path'

/-- `getBoundaryPath` from the inline copy in src/main.ts lines 95-145. -/
def getBoundaryPath (p1 p2 : Point) (isClockwise : Bool) (gl : ℚ) : List Point :=
  let orderedCorners := createOrderedCorners gl
  let currentSeg := getSegmentForPoint p1 gl
  let targetSeg := getSegmentForPoint p2 gl
  if p1 = p2 then [p1]
  else if currentSeg = -1 then [p1]
  else if targetSeg = -1 then [p1, p2]
  else
    let path := boundaryPathGo isClockwise orderedCorners p2 targetSeg 8 currentSeg [p1]
    if lastD path = p2 then path else path ++ [p2]

/-- `calculateQixPolygons` from the inline copy in src/main.ts lines 147-170. -/
def calculateQixPolygons (playerTrail : List Point) (gl : ℚ) :
    List Point × List Point :=
  if playerTrail.length < 2 then ([], [])
  else
    let startTrailNode := playerTrail.headD pZero
    let endTrailNode := lastD playerTrail
    let boundaryPathCW := getBoundaryPath endTrailNode startTrailNode true gl
    let boundaryPathCCW := getBoundaryPath endTrailNode startTrailNode false gl
    (GeometryUtils.dedupClosed (playerTrail ++ boundaryPathCW.drop 1),
     GeometryUtils.dedupClosed (playerTrail ++ boundaryPathCCW.drop 1))

/-- `THREE.ShapeUtils.area`: signed shoelace area of a contour, positive for
counter-clockwise winding (used at src/main.ts lines 326-327). -/
def shapeArea (contour : List Point) : ℚ :=
  match contour with
  | [] => 0
  | c :: _ =>
    let rotated := contour.getLastD c :: contour.dropLast
    ((List.zip rotated contour).map
      (fun pq => pq.1.x * pq.2.y - pq.2.x * pq.1.y)).sum / 2

/-- The polygon-selection block of the capture logic in src/main.ts
lines 323-354: pick the candidate with the smaller positive absolute area
(ties and a zero opposite area favour polygon1), reversing the winner when
its signed area is negative; `none` when neither area is positive. -/
def selectCapture (polygon1 polygon2 : List Point) : Option (List Point × ℚ) :=
  let area1 := shapeArea polygon1
  let area2 := shapeArea polygon2
  let absArea1 := |area1|
  let absArea2 := |area2|
  if absArea1 > 0 ∧ (absArea1 ≤ absArea2 ∨ absArea2 = 0) then
    some (if area1 < 0 then polygon1.reverse else polygon1, absArea1)
  else if absArea2 > 0 then
    some (if area2 < 0 then polygon2.reverse else polygon2, absArea2)
  else none

/-- The capture pipeline of `animate` in src/main.ts lines 309-377: short
trails and degenerate candidate polygons produce no capture; otherwise the
selection rule decides the emitted region. -/
def runCapture (playerTrail : List Point) : Option (List Point × ℚ) :=
  if playerTrail.length < 2 then none
  else
    let polys := calculateQixPolygons playerTrail gridLimit
    if polys.1.length < 3 ∨ polys.2.length < 3 then none
    else selectCapture polys.1 polys.2

/-- `newlyCapturedPercent` from src/main.ts line 366. -/
def newlyCapturedPercent (actualFilledArea : ℚ) : ℚ :=
  actualFilledArea / totalGameArea * 100

end QixClone.Main

namespace QixClone

/-- A 3-D point, modelling `THREE.Vector3` (trail points carry a z
coordinate). -/
structure Point3 where
  x : ℚ
  y : ℚ
  z : ℚ
deriving DecidableEq

/-- `MAX_TRAIL_POINTS` from src/game/trail.ts line 24. -/
def MAX_TRAIL_POINTS : Nat := 500

/-- The point-buffer behaviour of `updateTrail` in src/game/trail.ts
lines 50-76 (the capped version): below the cap the new point is pushed;
at the cap the oldest point is shifted off before the push. The THREE.js
geometry buffer mirrors `trailPoints` and is not modelled. -/
def updateTrail (trailPoints : List Point3) (newPoint : Point3) : List Point3 :=
  if trailPoints.length < MAX_TRAIL_POINTS then trailPoints ++ [newPoint]
  else trailPoints.tail ++ [newPoint]

/-- Even-odd ray-crossing point-in-polygon test over a vertex list, the
containment semantics assumed by `shape.containsPoint(...)` at
src/game/qix_enemy.ts line 159 for a captured polygon; only its Boolean
outcome matters to the update and no theorem below depends on its value. -/
def containsPoint (poly : List Point) (p : Point) : Bool :=
  let edges := match poly with
    | [] => []
    | c :: _ => List.zip (poly.getLastD c :: poly.dropLast) poly
  (edges.filter (fun e =>
    ((e.1.y > p.y) ≠ (e.2.y > p.y)) ∧
    (e.2.y - e.1.y ≠ 0) ∧
    p.x < (e.2.x - e.1.x) * (p.y - e.1.y) / (e.2.y - e.1.y) + e.1.x)).length % 2 = 1

/-- `ANIMATION_SPEED` from src/game/qix_enemy.ts line 7. -/
def ANIMATION_SPEED : ℚ := 1 / 10

/-- The state of `QixEnemy` (src/game/qix_enemy.ts, frozen-capable version,
lines 97-234): centre position, velocity, confinement rectangle, frozen
flag and animation clock. The undulating body offsets are rendering data
derived from `position` and `time` and are not separate state. -/
structure QixState where
  position : Point
  velocity : Point
  minX : ℚ
  maxX : ℚ
  minY : ℚ
  maxY : ℚ
  isFrozen : Bool
  time : ℚ
deriving DecidableEq

/-- `QixEnemy.update` from src/game/qix_enemy.ts lines 143-189: frozen
short-circuit, animation clock advance, tentative move, bounce off captured
shapes, then wall bounce with clamping (guarded against double inversion
after a captured-area bounce). -/
def qixUpdate (s : QixState) (deltaTime : ℚ) (capturedShapes : List (List Point)) :
    QixState :=
  if s.isFrozen then s
  else
    let time := s.time + ANIMATION_SPEED * deltaTime * 50
    let px := s.position.x + s.velocity.x
    let py := s.position.y + s.velocity.y
    let bouncedOffCapturedArea :=
      capturedShapes.any (fun shape => containsPoint shape ⟨px, py⟩)
    let pos : Point := if bouncedOffCapturedArea then s.position else ⟨px, py⟩
    let vel : Point :=
      if bouncedOffCapturedArea then ⟨-s.velocity.x, -s.velocity.y⟩ else s.velocity
    let hitX := pos.x ≤ s.minX ∨ pos.x ≥ s.maxX
    let vx :=
      if hitX ∧ (¬bouncedOffCapturedArea ∨ (pos.x ≤ s.minX ∧ vel.x < 0) ∨
                  (pos.x ≥ s.maxX ∧ vel.x > 0)) then -vel.x else vel.x
    let px' := if hitX then max s.minX (min s.maxX pos.x) else pos.x
    let hitY := pos.y ≤ s.minY ∨ pos.y ≥ s.maxY
    let vy :=
      if hitY ∧ (¬bouncedOffCapturedArea ∨ (pos.y ≤ s.minY ∧ vel.y < 0) ∨
                  (pos.y ≥ s.maxY ∧ vel.y > 0)) then -vel.y else vel.y
    let py' := if hitY then max s.minY (min s.maxY pos.y) else pos.y
    { s with position := ⟨px', py'⟩, velocity := ⟨vx, vy⟩, time := time }

/-- `SPARX_SPEED` from src/game/sparx_enemy.ts line 5. -/
def SPARX_SPEED : ℚ := 1 / 20

/-- `FUSE_SPEED_MULTIPLIER` from src/game/sparx_enemy.ts line 6. -/
def FUSE_SPEED_MULTIPLIER : ℚ := 3 / 2

/-- `this.fuseSpeed = this.speed * FUSE_SPEED_MULTIPLIER`
(src/game/sparx_enemy.ts line 36). -/
def fuseSpeed : ℚ := SPARX_SPEED * FUSE_SPEED_MULTIPLIER

/-- The state of `SparxEnemy` (src/game/sparx_enemy.ts): patrol position,
segment index, direction sign, and the orthogonal fuse-mode fields; the
constructor parameters `gridLimit` and `corners` are carried as fields. -/
structure SparxState where
  position : Point
  currentSegment : Int
  direction : ℚ
  isFuse : Bool
  currentTargetTrailPointIndex : Nat
  currentTrailPoints : Option (List Point)
  gridLimit : ℚ
  corners : List Point
deriving DecidableEq

/-- `SparxEnemy.activateFuseMode` from src/game/sparx_enemy.ts lines 48-65:
an empty trail is rejected (warning only); otherwise the enemy teleports to
the snapshot's first point and targets index 1 (0 for a singleton). -/
def activateFuseMode (s : SparxState) (trail : List Point) : SparxState :=
  if trail = [] then s
  else
    { s with
      isFuse := true
      currentTrailPoints := some trail
      position := trail.headD pZero
      currentTargetTrailPointIndex := if trail.length > 1 then 1 else 0 }

/-- Squared distance, `Vector2.distanceToSquared`. -/
def distSq (a b : Point) : ℚ := (a.x - b.x) ^ 2 + (a.y - b.y) ^ 2

/-- `SparxEnemy.snapToNearestBoundary` from src/game/sparx_enemy.ts
lines 67-104: snap to the closest corner (first wins ties) and resume the
corner's segment/direction. -/
def snapToNearestBoundary (s : SparxState) : SparxState :=
  if s.corners.length ≠ 4 then
    { s with position := ⟨-s.gridLimit, -s.gridLimit⟩, currentSegment := 0, direction := 1 }
  else
    let closestCorner :=
      s.corners.foldl
        (fun best c =>
          match best with
          | none => some c
          | some b => if distSq s.position c < distSq s.position b then some c else best)
        none
    match closestCorner with
    | none => { s with position := ⟨-s.gridLimit, -s.gridLimit⟩, currentSegment := 0, direction := 1 }
    | some cc =>
      let s' := { s with position := cc }
      if cc = s.corners.getD 0 pZero then { s' with currentSegment := 0, direction := 1 }
      else if cc = s.corners.getD 1 pZero then { s' with currentSegment := 1, direction := 1 }
      else if cc = s.corners.getD 2 pZero then { s' with currentSegment := 2, direction := -1 }
      else if cc = s.corners.getD 3 pZero then { s' with currentSegment := 3, direction := -1 }
      else s'

/-- `SparxEnemy.deactivateFuseMode` from src/game/sparx_enemy.ts
lines 106-118: no-op unless in fuse mode; otherwise clear the fuse state and
snap to the nearest boundary corner. -/
def deactivateFuseMode (s : SparxState) : SparxState :=
  if ¬s.isFuse then s
  else
    snapToNearestBoundary
      { s with isFuse := false, currentTrailPoints := none,
               currentTargetTrailPointIndex := 0 }

/-- `SparxEnemy.update` from src/game/sparx_enemy.ts lines 120-199.
`approach` abstracts the one irrational-valued step
`directionToTarget.normalize().multiplyScalar(moveDistance)` followed by
`position.add` (lines 143-144), which has no exact rational embedding; every
other statement is mirrored directly. -/
def sparxUpdate (approach : Point → Point → ℚ → Point) (s : SparxState)
    (deltaTime : ℚ) : SparxState :=
  if s.isFuse then
    match s.currentTrailPoints with
    | none => deactivateFuseMode s
    | some tps =>
      if tps.length ≤ s.currentTargetTrailPointIndex then deactivateFuseMode s
      else
        let targetPoint := tps.getD s.currentTargetTrailPointIndex pZero
        let distanceToTargetSq := distSq targetPoint s.position
        let moveDistance := fuseSpeed * deltaTime * 50
        if distanceToTargetSq ≤ moveDistance * moveDistance ∨ distanceToTargetSq = 0 then
          { s with position := targetPoint,
                   currentTargetTrailPointIndex := s.currentTargetTrailPointIndex + 1 }
        else
          { s with position := approach s.position targetPoint moveDistance }
  else
    let moveDistance := SPARX_SPEED * deltaTime * 50
    let c0 := s.corners.getD 0 pZero
    let c1 := s.corners.getD 1 pZero
    let c2 := s.corners.getD 2 pZero
    let c3 := s.corners.getD 3 pZero
    if s.currentSegment = 0 then
      let x := s.position.x + s.direction * moveDistance
      if s.direction = 1 ∧ x ≥ c1.x then
        { s with position := ⟨c1.x, s.position.y⟩, currentSegment := 1 }
      else if s.direction = -1 ∧ x ≤ c0.x then
        { s with position := ⟨c0.x, s.position.y⟩, currentSegment := 3, direction := -1 }
      else { s with position := ⟨x, s.position.y⟩ }
    else if s.currentSegment = 1 then
      let y := s.position.y + s.direction * moveDistance
      if s.direction = 1 ∧ y ≥ c2.y then
        { s with position := ⟨s.position.x, c2.y⟩, currentSegment := 2, direction := -1 }
      else if s.direction = -1 ∧ y ≤ c1.y then
        { s with position := ⟨s.position.x, c1.y⟩, currentSegment := 0, direction := -1 }
      else { s with position := ⟨s.position.x, y⟩ }
    else if s.currentSegment = 2 then
      let x := s.position.x + s.direction * moveDistance
      if s.direction = -1 ∧ x ≤ c3.x then
        { s with position := ⟨c3.x, s.position.y⟩, currentSegment := 3 }
      else if s.direction = 1 ∧ x ≥ c2.x then
        { s with position := ⟨c2.x, s.position.y⟩, currentSegment := 1, direction := 1 }
      else { s with position := ⟨x, s.position.y⟩ }
    else if s.currentSegment = 3 then
      let y := s.position.y + s.direction * moveDistance
      if s.direction = -1 ∧ y ≤ c0.y then
        { s with position := ⟨s.position.x, c0.y⟩, currentSegment := 0, direction := 1 }
      else if s.direction = 1 ∧ y ≥ c3.y then
        { s with position := ⟨s.position.x, c3.y⟩, currentSegment := 2, direction := 1 }
      else { s with position := ⟨s.position.x, y⟩ }
    else s

/-- An axis-aligned rectangle, modelling both the Qix confinement record and
`THREE.Box2`. -/
structure Rect where
  minX : ℚ
  maxX : ℚ
  minY : ℚ
  maxY : ℚ
deriving DecidableEq

/-- `THREE.Box2().setFromPoints(points)`: componentwise min/max bounding box
(src/unnamed/part_003 line 1356); the `[]` case is unreachable because the
caller returns early on an empty point list. -/
def boxFromPoints : List Point → Rect
  | [] => ⟨0, 0, 0, 0⟩
  | p :: ps =>
    ps.foldl
      (fun b q => ⟨min b.minX q.x, max b.maxX q.x, min b.minY q.y, max b.maxY q.y⟩)
      ⟨p.x, p.x, p.y, p.y⟩

/-- Epsilon of `updateQixConfinementOnCapture`
(src/unnamed/part_003 line 1364). -/
def confEpsilon : ℚ := 1 / 10

/-- Left-slice pattern of `updateQixConfinementOnCapture`
(src/unnamed/part_003 lines 1367-1370). -/
def sliceFromLeft (box conf : Rect) : Prop :=
  |box.minX - conf.minX| < confEpsilon ∧ |box.minY - conf.minY| < confEpsilon ∧
  |box.maxY - conf.maxY| < confEpsilon ∧ box.maxX < conf.maxX - confEpsilon

/-- Right-slice pattern (src/unnamed/part_003 lines 1375-1378). -/
def sliceFromRight (box conf : Rect) : Prop :=
  |box.maxX - conf.maxX| < confEpsilon ∧ |box.minY - conf.minY| < confEpsilon ∧
  |box.maxY - conf.maxY| < confEpsilon ∧ box.minX > conf.minX + confEpsilon

/-- Bottom-slice pattern (src/unnamed/part_003 lines 1383-1386). -/
def sliceFromBottom (box conf : Rect) : Prop :=
  |box.minY - conf.minY| < confEpsilon ∧ |box.minX - conf.minX| < confEpsilon ∧
  |box.maxX - conf.maxX| < confEpsilon ∧ box.maxY < conf.maxY - confEpsilon

/-- Top-slice pattern (src/unnamed/part_003 lines 1391-1394). -/
def sliceFromTop (box conf : Rect) : Prop :=
  |box.maxY - conf.maxY| < confEpsilon ∧ |box.minX - conf.minX| < confEpsilon ∧
  |box.maxX - conf.maxX| < confEpsilon ∧ box.minY > conf.minY + confEpsilon

instance (box conf : Rect) : Decidable (sliceFromLeft box conf) := by
  unfold sliceFromLeft; infer_instance

instance (box conf : Rect) : Decidable (sliceFromRight box conf) := by
  unfold sliceFromRight; infer_instance

instance (box conf : Rect) : Decidable (sliceFromBottom box conf) := by
  unfold sliceFromBottom; infer_instance

instance (box conf : Rect) : Decidable (sliceFromTop box conf) := by
  unfold sliceFromTop; infer_instance

/-- The `confinementChanged` branch of `updateQixConfinementOnCapture`
(src/unnamed/part_003 lines 1399-1429): install the shrunken rectangle,
clamp the enemy into it (`qix.setConfinement`), then push it a margin of 0.2
inside any still-violated edge, flipping outward velocity components. -/
def applyConfinementChange (newConf : Rect) (pos vel : Point) :
    Rect × Point × Point :=
  let pushMargin : ℚ := 1 / 5
  let cx := max newConf.minX (min newConf.maxX pos.x)
  let cy := max newConf.minY (min newConf.maxY pos.y)
  let (px, vx) :=
    if cx < newConf.minX then
      (newConf.minX + pushMargin, if vel.x < 0 then -vel.x else vel.x)
    else (cx, vel.x)
  let (px', vx') :=
    if px > newConf.maxX then
      (newConf.maxX - pushMargin, if vx > 0 then -vx else vx)
    else (px, vx)
  let (py, vy) :=
    if cy < newConf.minY then
      (newConf.minY + pushMargin, if vel.y < 0 then -vel.y else vel.y)
    else (cy, vel.y)
  let (py', vy') :=
    if py > newConf.maxY then
      (newConf.maxY - pushMargin, if vy > 0 then -vy else vy)
    else (py, vy)
  (newConf, ⟨px', py'⟩, ⟨vx', vy'⟩)

/-- `updateQixConfinementOnCapture` from src/unnamed/part_003
lines 1351-1431: match the capture's bounding box against the four
edge-flush full-span slice patterns; on a match shrink the confinement and
adjust the enemy, otherwise leave everything untouched. -/
def updateQixConfinementOnCapture (points : List Point) (conf : Rect)
    (pos vel : Point) : Rect × Point × Point :=
  if points = [] then (conf, pos, vel)
  else
    let capturedBox := boxFromPoints points
    if sliceFromLeft capturedBox conf then
      applyConfinementChange ⟨capturedBox.maxX, conf.maxX, conf.minY, conf.maxY⟩ pos vel
    else if sliceFromRight capturedBox conf then
      applyConfinementChange ⟨conf.minX, capturedBox.minX, conf.minY, conf.maxY⟩ pos vel
    else if sliceFromBottom capturedBox conf then
      applyConfinementChange ⟨conf.minX, conf.maxX, capturedBox.maxY, conf.maxY⟩ pos vel
    else if sliceFromTop capturedBox conf then
      applyConfinementChange ⟨conf.minX, conf.maxX, conf.minY, capturedBox.minY⟩ pos vel
    else (conf, pos, vel)

/-- Claim C1: the claim states that segments sharing exactly one endpoint and
not otherwise crossing or overlapping report no intersection, with
`segmentsIntersect((0,0),(1,1),(1,1),(2,0)) = false`. The code disagrees: a
shared endpoint forces one orientation to zero, so the collinear special
case fires (the shared endpoint always lies in the bounding box) and the
function returns `true` — on the claim's own example and on the
shared-endpoint inputs the repository's geometryUtils test expects to be
`false`. The endpoint-exclusion guard sits inside the all-orientations-
nonzero branch, which a shared endpoint makes unreachable. -/
theorem segmentsIntersect_shared_endpoint_eval :
    segmentsIntersect ⟨0, 0⟩ ⟨1, 1⟩ ⟨1, 1⟩ ⟨2, 0⟩ = true ∧
    segmentsIntersect ⟨0, 0⟩ ⟨2, 2⟩ ⟨2, 2⟩ ⟨3, 3⟩ = true ∧
    segmentsIntersect ⟨0, 0⟩ ⟨1, 1⟩ ⟨0, 0⟩ ⟨1, -1⟩ = true ∧
    segmentsIntersect ⟨0, 0⟩ ⟨1, 1⟩ ⟨0, 2⟩ ⟨1, 1⟩ = true := by
  norm_num [segmentsIntersect, getOrientation, onSegment, Point.mk.injEq]

/-- Claim C5: the claim states the classifier maps each corner to the edge
starting there in clockwise order (bl→0, br→1, tr→2, tl→3). In
src/game/geometryUtils.ts the epsilon edge checks catch every corner before
the corner-assignment block, yielding br→0, tr→1, tl→2 — contradicting the
repository's own geometryUtils test expectations. The inline legacy
classifier in src/main.ts (and src/unnamed/part_003), with exact
corner-exclusive edge checks, returns exactly the claimed values. -/
theorem corner_classification_eval :
    (GeometryUtils.getSegmentForPoint ⟨-14, -14⟩ 14 = 0 ∧
     GeometryUtils.getSegmentForPoint ⟨14, -14⟩ 14 = 0 ∧
     GeometryUtils.getSegmentForPoint ⟨14, 14⟩ 14 = 1 ∧
     GeometryUtils.getSegmentForPoint ⟨-14, 14⟩ 14 = 2) ∧
    (Main.getSegmentForPoint ⟨-14, -14⟩ 14 = 0 ∧
     Main.getSegmentForPoint ⟨14, -14⟩ 14 = 1 ∧
     Main.getSegmentForPoint ⟨14, 14⟩ 14 = 2 ∧
     Main.getSegmentForPoint ⟨-14, 14⟩ 14 = 3) := by
  norm_num [GeometryUtils.getSegmentForPoint, Main.getSegmentForPoint,
    GeometryUtils.epsilon, createOrderedCorners, pZero, Point.mk.injEq, abs_lt]

/-- Claim C9: activating fuse mode with an empty trail snapshot leaves the
patrol enemy entirely unchanged (position, segment, direction, fuse flag
and stored snapshot), so normal patrol continues unaffected. -/
theorem activateFuseMode_empty_trail (s : SparxState) :
    activateFuseMode s [] = s := rfl

/-- Claim C10: a frozen roaming enemy is left exactly unchanged (position,
velocity, animation clock — indeed its whole state) by any number of
per-tick updates, for arbitrary delta times and captured-shape lists. -/
theorem frozen_enemy_noop (s : QixState) (ticks : List (ℚ × List (List Point)))
    (h : s.isFrozen = true) :
    List.foldl (fun st t => qixUpdate st t.1 t.2) s ticks = s := by
  induction ticks with
  | nil => rfl
  | cons t ts ih =>
    have hstep : qixUpdate s t.1 t.2 = s := by simp [qixUpdate, h]
    rw [List.foldl_cons, hstep]
    exact ih

theorem frozen_enemy_noop_witness :
    List.foldl (fun st t => qixUpdate st t.1 t.2)
      ⟨⟨0, 0⟩, ⟨1/10, 1/10⟩, -14, 14, -14, 14, true, 0⟩
      [(16/1000, [[⟨0, 0⟩, ⟨1, 0⟩, ⟨0, 1⟩]]), (1/30, [])] =
      ⟨⟨0, 0⟩, ⟨1/10, 1/10⟩, -14, 14, -14, 14, true, 0⟩ :=
  frozen_enemy_noop _ _ rfl

/-- Claim C7: the trail point buffer is a capped deque of at most
`MAX_TRAIL_POINTS = 500` points: below the cap a new point is appended and
the length grows by one; at the cap the oldest point is evicted, the new
point appended, and the length stays at the cap; the cap is never
exceeded. -/
theorem trail_buffer_cap (trailPoints : List Point3) (newPoint : Point3) :
    (trailPoints.length < MAX_TRAIL_POINTS →
        updateTrail trailPoints newPoint = trailPoints ++ [newPoint] ∧
        (updateTrail trailPoints newPoint).length = trailPoints.length + 1) ∧
    (trailPoints.length = MAX_TRAIL_POINTS →
        updateTrail trailPoints newPoint = trailPoints.tail ++ [newPoint] ∧
        (updateTrail trailPoints newPoint).length = MAX_TRAIL_POINTS) ∧
    (trailPoints.length ≤ MAX_TRAIL_POINTS →
        (updateTrail trailPoints newPoint).length ≤ MAX_TRAIL_POINTS) := by
  simp only [updateTrail, MAX_TRAIL_POINTS]
  refine ⟨fun h => ?_, fun h => ?_, fun h => ?_⟩
  · rw [if_pos h]
    exact ⟨rfl, by simp⟩
  · have hlt : ¬ trailPoints.length < 500 := by omega
    rw [if_neg hlt]
    refine ⟨rfl, ?_⟩
    simp only [List.length_append, List.length_tail, List.length_singleton]
    omega
  · by_cases hlt : trailPoints.length < 500
    · rw [if_pos hlt]
      simp only [List.length_append, List.length_singleton]
      omega
    · rw [if_neg hlt]
      simp only [List.length_append, List.length_tail, List.length_singleton]
      omega

theorem trail_buffer_cap_witness :
    (updateTrail [⟨0, 0, 0⟩] ⟨1, 2, 0⟩ = [⟨0, 0, 0⟩, ⟨1, 2, 0⟩] ∧
      (updateTrail [⟨0, 0, 0⟩] ⟨1, 2, 0⟩).length = 2) ∧
    (updateTrail (List.replicate 500 (⟨0, 0, 0⟩ : Point3)) ⟨1, 2, 0⟩ =
        (List.replicate 500 (⟨0, 0, 0⟩ : Point3)).tail ++ [⟨1, 2, 0⟩] ∧
      (updateTrail (List.replicate 500 (⟨0, 0, 0⟩ : Point3)) ⟨1, 2, 0⟩).length = 500) :=
  ⟨(trail_buffer_cap [⟨0, 0, 0⟩] ⟨1, 2, 0⟩).1
     (by norm_num [MAX_TRAIL_POINTS]),
   (trail_buffer_cap (List.replicate 500 ⟨0, 0, 0⟩) ⟨1, 2, 0⟩).2.1
     (by norm_num [MAX_TRAIL_POINTS])⟩

/-- Claim C6: when a capture's bounding box matches none of the four
edge-flush full-span slice patterns against the enemy's confinement
rectangle, the confinement updater leaves the confinement rectangle, the
enemy position and the enemy velocity exactly unchanged. -/
theorem confinement_no_match_noop (points : List Point) (conf : Rect)
    (pos vel : Point) (hne : points ≠ [])
    (hL : ¬ sliceFromLeft (boxFromPoints points) conf)
    (hR : ¬ sliceFromRight (boxFromPoints points) conf)
    (hB : ¬ sliceFromBottom (boxFromPoints points) conf)
    (hT : ¬ sliceFromTop (boxFromPoints points) conf) :
    updateQixConfinementOnCapture points conf pos vel = (conf, pos, vel) := by
  simp [updateQixConfinementOnCapture, hne, hL, hR, hB, hT]

theorem confinement_no_match_noop_witness :
    updateQixConfinementOnCapture [⟨0, 0⟩, ⟨1, 0⟩, ⟨1, 1⟩]
      ⟨-14, 14, -14, 14⟩ ⟨2, 2⟩ ⟨1/10, 1/10⟩ =
      (⟨-14, 14, -14, 14⟩, ⟨2, 2⟩, ⟨1/10, 1/10⟩) :=
  confinement_no_match_noop _ _ _ _ (by simp)
    (by norm_num [sliceFromLeft, boxFromPoints, confEpsilon, abs_lt, min_def, max_def])
    (by norm_num [sliceFromRight, boxFromPoints, confEpsilon, abs_lt, min_def, max_def])
    (by norm_num [sliceFromBottom, boxFromPoints, confEpsilon, abs_lt, min_def, max_def])
    (by norm_num [sliceFromTop, boxFromPoints, confEpsilon, abs_lt, min_def, max_def])

/-- Claim C2: the capture selection rule — the candidate with the smaller
positive absolute area wins; with exactly one zero absolute area the other
(positive) candidate wins; with both zero no region is emitted. On the
concrete corner-cut trail from (-5,-14) to (-14,-5) at field limit 14 the
3-vertex corner polygon of area 81/2 = 40.5 is selected over the 5-vertex
remainder of area 1487/2 = 743.5. -/
theorem capture_selection_smaller_area :
    (∀ polygon1 polygon2 : List Point,
        0 < |Main.shapeArea polygon1| →
        |Main.shapeArea polygon1| < |Main.shapeArea polygon2| →
        Main.selectCapture polygon1 polygon2 =
          some (if Main.shapeArea polygon1 < 0 then polygon1.reverse else polygon1,
                |Main.shapeArea polygon1|)) ∧
    (∀ polygon1 polygon2 : List Point,
        0 < |Main.shapeArea polygon2| →
        |Main.shapeArea polygon2| < |Main.shapeArea polygon1| →
        Main.selectCapture polygon1 polygon2 =
          some (if Main.shapeArea polygon2 < 0 then polygon2.reverse else polygon2,
                |Main.shapeArea polygon2|)) ∧
    (∀ polygon1 polygon2 : List Point,
        |Main.shapeArea polygon1| = 0 → 0 < |Main.shapeArea polygon2| →
        Main.selectCapture polygon1 polygon2 =
          some (if Main.shapeArea polygon2 < 0 then polygon2.reverse else polygon2,
                |Main.shapeArea polygon2|)) ∧
    (∀ polygon1 polygon2 : List Point,
        |Main.shapeArea polygon2| = 0 → 0 < |Main.shapeArea polygon1| →
        Main.selectCapture polygon1 polygon2 =
          some (if Main.shapeArea polygon1 < 0 then polygon1.reverse else polygon1,
                |Main.shapeArea polygon1|)) ∧
    (∀ polygon1 polygon2 : List Point,
        |Main.shapeArea polygon1| = 0 → |Main.shapeArea polygon2| = 0 →
        Main.selectCapture polygon1 polygon2 = none) ∧
    (Main.runCapture [⟨-5, -14⟩, ⟨-14, -5⟩] =
        some ([⟨-5, -14⟩, ⟨-14, -5⟩, ⟨-14, -14⟩], 81/2) ∧
      (Main.calculateQixPolygons [⟨-5, -14⟩, ⟨-14, -5⟩] Main.gridLimit).1.length = 3 ∧
      (Main.calculateQixPolygons [⟨-5, -14⟩, ⟨-14, -5⟩] Main.gridLimit).2.length = 5 ∧
      |Main.shapeArea (Main.calculateQixPolygons [⟨-5, -14⟩, ⟨-14, -5⟩] Main.gridLimit).1|
        = 81/2 ∧
      |Main.shapeArea (Main.calculateQixPolygons [⟨-5, -14⟩, ⟨-14, -5⟩] Main.gridLimit).2|
        = 1487/2) := by
  refine ⟨?_, ?_, ?_, ?_, ?_, ?_⟩
  · intro polygon1 polygon2 h1 h2
    simp only [Main.selectCapture]
    rw [if_pos ⟨h1, Or.inl h2.le⟩]
  · intro polygon1 polygon2 h1 h2
    simp only [Main.selectCapture]
    rw [if_neg, if_pos h1]
    rintro ⟨-, h | h⟩
    · exact absurd h (not_le.mpr h2)
    · exact absurd h (ne_of_gt h1)
  · intro polygon1 polygon2 h1 h2
    simp only [Main.selectCapture]
    rw [if_neg, if_pos h2]
    rintro ⟨h, -⟩
    exact absurd h1 (ne_of_gt h)
  · intro polygon1 polygon2 h1 h2
    simp only [Main.selectCapture]
    rw [if_pos ⟨h2, Or.inr h1⟩]
  · intro polygon1 polygon2 h1 h2
    simp only [Main.selectCapture]
    rw [if_neg, if_neg]
    · exact fun h => absurd h2 (ne_of_gt h)
    · rintro ⟨h, -⟩
      exact absurd h1 (ne_of_gt h)
  · refine ⟨?_, ?_, ?_, ?_, ?_⟩ <;>
      norm_num [Main.runCapture, Main.calculateQixPolygons, Main.getBoundaryPath,
        Main.boundaryPathGo, Main.getSegmentForPoint, Main.selectCapture,
        Main.shapeArea, Main.gridLimit, GeometryUtils.dedupClosed, lastD, cornerAt,
        createOrderedCorners, pZero, Point.mk.injEq, List.getD_cons_zero,
        List.getD_cons_succ, abs_lt, abs_of_pos, abs_of_nonneg]

theorem capture_selection_smaller_area_witness :
    Main.selectCapture [⟨0, 0⟩, ⟨1, 0⟩, ⟨0, 1⟩] [⟨0, 0⟩, ⟨2, 0⟩, ⟨0, 2⟩] =
      some (if Main.shapeArea [⟨0, 0⟩, ⟨1, 0⟩, ⟨0, 1⟩] < 0
            then List.reverse [⟨0, 0⟩, ⟨1, 0⟩, ⟨0, 1⟩] else [⟨0, 0⟩, ⟨1, 0⟩, ⟨0, 1⟩],
            |Main.shapeArea [⟨0, 0⟩, ⟨1, 0⟩, ⟨0, 1⟩]|) :=
  capture_selection_smaller_area.1 [⟨0, 0⟩, ⟨1, 0⟩, ⟨0, 1⟩] [⟨0, 0⟩, ⟨2, 0⟩, ⟨0, 2⟩]
    (by norm_num [Main.shapeArea, abs_of_pos])
    (by norm_num [Main.shapeArea, abs_of_pos])

/-- Claim C3 counterexample: on the U-shaped trail
[(-5,-14),(-5,0),(5,0),(5,-14)] at field limit 14 the emitted capture's
vertex list is the reverse of the trail, not the trail order the claim
states (the selected polygon's signed area is negative, so the capture
logic reverses it for counter-clockwise winding before emitting). -/
theorem capture_end_to_end_order_cex :
    (Main.runCapture [⟨-5, -14⟩, ⟨-5, 0⟩, ⟨5, 0⟩, ⟨5, -14⟩]).map Prod.fst =
        some [⟨5, -14⟩, ⟨5, 0⟩, ⟨-5, 0⟩, ⟨-5, -14⟩] ∧
    (Main.runCapture [⟨-5, -14⟩, ⟨-5, 0⟩, ⟨5, 0⟩, ⟨5, -14⟩]).map Prod.fst ≠
        some [⟨-5, -14⟩, ⟨-5, 0⟩, ⟨5, 0⟩, ⟨5, -14⟩] := by
  constructor <;>
    norm_num [Main.runCapture, Main.calculateQixPolygons, Main.getBoundaryPath,
      Main.boundaryPathGo, Main.getSegmentForPoint, Main.selectCapture,
      Main.shapeArea, Main.gridLimit, GeometryUtils.dedupClosed, lastD, cornerAt,
      createOrderedCorners, pZero, Point.mk.injEq, List.getD_cons_zero,
      List.getD_cons_succ, abs_lt, abs_of_pos, abs_of_nonneg]

/-- Claim C3 as amended: completing the trail
[(-5,-14),(-5,0),(5,0),(5,-14)] at field limit 14 selects the candidate
polygon whose vertex list is exactly the trail, with absolute area 140 and
captured-percentage contribution 140/784×100 = 125/7 ≈ 17.86%; because the
selected polygon's signed area is -140, the emitted capture carries the
reversed vertex list [(5,-14),(5,0),(-5,0),(-5,-14)]. -/
theorem capture_end_to_end_amended :
    Main.runCapture [⟨-5, -14⟩, ⟨-5, 0⟩, ⟨5, 0⟩, ⟨5, -14⟩] =
        some ([⟨5, -14⟩, ⟨5, 0⟩, ⟨-5, 0⟩, ⟨-5, -14⟩], 140) ∧
    (Main.calculateQixPolygons [⟨-5, -14⟩, ⟨-5, 0⟩, ⟨5, 0⟩, ⟨5, -14⟩]
        Main.gridLimit).1 = [⟨-5, -14⟩, ⟨-5, 0⟩, ⟨5, 0⟩, ⟨5, -14⟩] ∧
    Main.shapeArea [⟨-5, -14⟩, ⟨-5, 0⟩, ⟨5, 0⟩, ⟨5, -14⟩] = -140 ∧
    Main.newlyCapturedPercent 140 = 125/7 := by
  refine ⟨?_, ?_, ?_, ?_⟩ <;>
    norm_num [Main.runCapture, Main.calculateQixPolygons, Main.getBoundaryPath,
      Main.boundaryPathGo, Main.getSegmentForPoint, Main.selectCapture,
      Main.shapeArea, Main.gridLimit, Main.newlyCapturedPercent,
      Main.totalGameArea, GeometryUtils.dedupClosed, lastD, cornerAt,
      createOrderedCorners, pZero, Point.mk.injEq, List.getD_cons_zero,
      List.getD_cons_succ, abs_lt, abs_of_pos, abs_of_nonneg]

/-- Claim C4: the claim states a fuse-mode patrol enemy parked at the final
snapshot point stays there in fuse mode until external deactivation. The
code disagrees: on the tick after the target cursor passes the last
snapshot point, the guard at the top of `update` calls
`deactivateFuseMode`, which clears fuse mode and snaps the enemy to the
nearest field corner. Here a fuse enemy parked at (1,0) after consuming the
snapshot [(0,0),(1,0)] is evaluated through one more update: fuse mode is
left and the enemy jumps to corner (14,-14). -/
theorem sparx_fuse_end_eval :
    (sparxUpdate (fun p _ _ => p)
        ⟨⟨1, 0⟩, 0, 1, true, 2, some [⟨0, 0⟩, ⟨1, 0⟩], 14, createOrderedCorners 14⟩
        (16/1000)).isFuse = false ∧
    (sparxUpdate (fun p _ _ => p)
        ⟨⟨1, 0⟩, 0, 1, true, 2, some [⟨0, 0⟩, ⟨1, 0⟩], 14, createOrderedCorners 14⟩
        (16/1000)).position = ⟨14, -14⟩ := by
  norm_num [sparxUpdate, deactivateFuseMode, snapToNearestBoundary, distSq,
    fuseSpeed, SPARX_SPEED, FUSE_SPEED_MULTIPLIER, createOrderedCorners, pZero,
    Point.mk.injEq]

theorem gu_loop_break (dir : Bool) (corners : List Point) (p1 p2 : Point)
    (t : Int) (fuel : Nat) :
    GeometryUtils.boundaryPathGo dir corners p1 p2 t (fuel + 1) t [p1] = [p1] := by
  rw [GeometryUtils.boundaryPathGo]
  rw [if_pos ⟨rfl, Or.inl rfl⟩]

theorem gu_path_same_seg (p1 p2 : Point) (gl : ℚ) (dir : Bool)
    (hseg : GeometryUtils.getSegmentForPoint p1 gl =
            GeometryUtils.getSegmentForPoint p2 gl)
    (hvalid : GeometryUtils.getSegmentForPoint p1 gl ≠ -1)
    (hne : p1 ≠ p2) :
    GeometryUtils.getBoundaryPath p1 p2 dir gl = [p1, p2] := by
  have hvalid2 : GeometryUtils.getSegmentForPoint p2 gl ≠ -1 := hseg ▸ hvalid
  simp only [GeometryUtils.getBoundaryPath]
  rw [if_neg hne, if_neg hvalid, if_neg hvalid2, hseg]
  have h8 : (8 : Nat) = 7 + 1 := rfl
  rw [h8, gu_loop_break]
  have hlast : ¬(lastD [p1] = p2) := fun h => hne h
  rw [if_neg hlast]
  rfl

/-- Claim C8 counterexample: the trail [(-5,-14),(0,0),(-5,-14)] has first
and last points on the same boundary edge (index 0), yet the clockwise
boundary path from its end to its start is the single point [(-5,-14)],
not the two-element list [end, start] the claim requires. -/
theorem same_segment_shortcut_cex :
    2 ≤ ([⟨-5, -14⟩, ⟨0, 0⟩, ⟨-5, -14⟩] : List Point).length ∧
    GeometryUtils.getSegmentForPoint (lastD [⟨-5, -14⟩, ⟨0, 0⟩, ⟨-5, -14⟩]) 14 =
      GeometryUtils.getSegmentForPoint
        (([⟨-5, -14⟩, ⟨0, 0⟩, ⟨-5, -14⟩] : List Point).headD pZero) 14 ∧
    GeometryUtils.getSegmentForPoint (lastD [⟨-5, -14⟩, ⟨0, 0⟩, ⟨-5, -14⟩]) 14 ≠ -1 ∧
    GeometryUtils.getBoundaryPath (lastD [⟨-5, -14⟩, ⟨0, 0⟩, ⟨-5, -14⟩])
        (([⟨-5, -14⟩, ⟨0, 0⟩, ⟨-5, -14⟩] : List Point).headD pZero) true 14 ≠
      [lastD [⟨-5, -14⟩, ⟨0, 0⟩, ⟨-5, -14⟩],
       ([⟨-5, -14⟩, ⟨0, 0⟩, ⟨-5, -14⟩] : List Point).headD pZero] := by
  refine ⟨by norm_num, ?_, ?_, ?_⟩ <;>
    norm_num [GeometryUtils.getBoundaryPath, GeometryUtils.getSegmentForPoint,
      GeometryUtils.epsilon, lastD, createOrderedCorners, pZero, Point.mk.injEq,
      abs_lt]

/-- Claim C8 as amended: for every trail of length at least 2 whose first
and last points classify to the same valid boundary edge index, if the two
endpoints are distinct then the clockwise and counter-clockwise boundary
paths from the trail's end to its start are both exactly [end, start] with
no intermediate corners; and (also when the endpoints coincide, where both
paths are the single point [end]) the two candidate polygons returned by
`calculateQixPolygons` have identical vertex lists, so the complement
region can never be the selected one. -/
theorem same_segment_shortcut_amended (trail : List Point) (gl : ℚ)
    (hlen : 2 ≤ trail.length)
    (hseg : GeometryUtils.getSegmentForPoint (lastD trail) gl =
            GeometryUtils.getSegmentForPoint (trail.headD pZero) gl)
    (hvalid : GeometryUtils.getSegmentForPoint (lastD trail) gl ≠ -1) :
    (lastD trail ≠ trail.headD pZero →
        GeometryUtils.getBoundaryPath (lastD trail) (trail.headD pZero) true gl =
          [lastD trail, trail.headD pZero] ∧
        GeometryUtils.getBoundaryPath (lastD trail) (trail.headD pZero) false gl =
          [lastD trail, trail.headD pZero]) ∧
    (GeometryUtils.calculateQixPolygons trail gl).1 =
      (GeometryUtils.calculateQixPolygons trail gl).2 := by
  constructor
  · intro hne
    exact ⟨gu_path_same_seg _ _ _ _ hseg hvalid hne,
           gu_path_same_seg _ _ _ _ hseg hvalid hne⟩
  · have hpaths :
        GeometryUtils.getBoundaryPath (lastD trail) (trail.headD pZero) true gl =
        GeometryUtils.getBoundaryPath (lastD trail) (trail.headD pZero) false gl := by
      by_cases hne : lastD trail = trail.headD pZero
      · simp only [GeometryUtils.getBoundaryPath]
        rw [if_pos hne, if_pos hne]
      · rw [gu_path_same_seg _ _ _ _ hseg hvalid hne,
            gu_path_same_seg _ _ _ _ hseg hvalid hne]
    simp only [GeometryUtils.calculateQixPolygons]
    rw [if_neg (by omega : ¬ trail.length < 2), hpaths]

theorem same_segment_shortcut_amended_witness :
    (GeometryUtils.getBoundaryPath ⟨5, -14⟩ ⟨-5, -14⟩ true 14 =
        [⟨5, -14⟩, ⟨-5, -14⟩] ∧
     GeometryUtils.getBoundaryPath ⟨5, -14⟩ ⟨-5, -14⟩ false 14 =
        [⟨5, -14⟩, ⟨-5, -14⟩]) ∧
    (GeometryUtils.calculateQixPolygons [⟨-5, -14⟩, ⟨5, -14⟩] 14).1 =
      (GeometryUtils.calculateQixPolygons [⟨-5, -14⟩, ⟨5, -14⟩] 14).2 := by
  have h := same_segment_shortcut_amended [⟨-5, -14⟩, ⟨5, -14⟩] 14 (by norm_num)
    (by norm_num [GeometryUtils.getSegmentForPoint, GeometryUtils.epsilon, lastD,
      createOrderedCorners, pZero, Point.mk.injEq, abs_lt])
    (by norm_num [GeometryUtils.getSegmentForPoint, GeometryUtils.epsilon, lastD,
      createOrderedCorners, pZero, Point.mk.injEq, abs_lt])
  exact ⟨h.1 (by norm_num [lastD, pZero, Point.mk.injEq]), h.2⟩

end QixClone
